import Mathlib

/-!
Shallow embedding of the violation-detection and scoring engine of the
interview-integrity-monitor repository (src/monitor/views.py and
src/monitor/models.py).

Timestamps are modelled as rationals (seconds); Django's
`(a - b).total_seconds()` becomes plain subtraction.  The `InterviewSession`
table row together with its related `ViolationLog` rows becomes an
`InterviewSession` structure holding its violation list in insertion order
(`auto_now_add` timestamps: each created row carries the current time `now`).
The database is an association list from session id to session row.
The image/audio classifiers are external collaborators: `process_frame`
receives the classifier verdict (`FaceStatus`) directly.
-/

namespace Monitor

/-- views.py line 13: `FACE_ABSENCE_THRESHOLD_SECONDS = 2`. -/
def FACE_ABSENCE_THRESHOLD_SECONDS : ℚ := 2

/-- views.py line 14: `SILENCE_THRESHOLD_SECONDS = 5`. -/
def SILENCE_THRESHOLD_SECONDS : ℚ := 5

/-- views.py lines 15-21: the `VIOLATION_PENALTIES` dict, read through
`VIOLATION_PENALTIES.get(v.violation_type, 0)` (line 99), so an unknown
kind yields 0. -/
def violationPenalty (t : String) : Int :=
  if t = "FACE_MISSING" then 5
  else if t = "MULTIPLE_FACES" then 10
  else if t = "FACE_ORIENTATION" then 2
  else if t = "AUDIO_SILENCE" then 5
  else if t = "TAB_SWITCH" then 8
  else 0

/-- The payload of a `ViolationLog.details` f-string:
`f"Face missing for > {time_since_last:.1f}s"` (line 158),
`"Multiple faces detected"` (line 165),
`f"Silence for > {time_since_active:.1f}s"` (line 240),
`f"Page {event_type}"` (line 213). -/
inductive ViolationDetails where
  | faceMissing (elapsed : ℚ)
  | multipleFaces
  | silence (elapsed : ℚ)
  | page (event_type : String)
deriving DecidableEq, Repr

/-- models.py `ViolationLog`: kind string, `auto_now_add` timestamp, details. -/
structure ViolationLog where
  violation_type : String
  timestamp : ℚ
  details : ViolationDetails
deriving DecidableEq, Repr

/-- models.py `InterviewSession` row, with its related `ViolationLog` rows
(`session.violations`) inlined as a list in insertion order. -/
structure InterviewSession where
  is_active : Bool
  last_face_seen : ℚ
  last_audio_activity : ℚ
  final_score : Int
  violation_count : Nat
  risk_level : String
  end_time : Option ℚ
  latest_frame : Option String
  violations : List ViolationLog
deriving DecidableEq, Repr

/-- The session table: id to row, first match wins. -/
structure Store where
  sessions : List (Nat × InterviewSession)
deriving DecidableEq, Repr

/-- Row lookup by primary key. -/
def lookupSession (sid : Nat) : List (Nat × InterviewSession) → Option InterviewSession
  | [] => none
  | (k, s) :: tl => if k = sid then some s else lookupSession sid tl

/-- Row update by primary key (every row with the key is replaced). -/
def setSessionList (sid : Nat) (s' : InterviewSession) :
    List (Nat × InterviewSession) → List (Nat × InterviewSession)
  | [] => []
  | (k, v) :: tl =>
    (if k = sid then (k, s') else (k, v)) :: setSessionList sid s' tl

/-- `session.save()`: write the (mutated) row back under its id. -/
def setSession (store : Store) (sid : Nat) (s' : InterviewSession) : Store :=
  ⟨setSessionList sid s' store.sessions⟩

/-- views.py lines 23-27: `get_session` returns the session only when it
exists with `is_active=True`, else `None`. -/
def get_session (store : Store) (sid : Nat) : Option InterviewSession :=
  match lookupSession sid store.sessions with
  | some s => if s.is_active then some s else none
  | none => none

/-- The rows of kind `t` for one session:
`ViolationLog.objects.filter(session=session, violation_type=t)`. -/
def kindLog (log : List ViolationLog) (t : String) : List ViolationLog :=
  log.filter fun v => v.violation_type == t

/-- Largest timestamp in a list of rows. -/
def maxTimestamp : List ViolationLog → Option ℚ
  | [] => none
  | v :: tl =>
    match maxTimestamp tl with
    | none => some v.timestamp
    | some m => some (max v.timestamp m)

/-- `.order_by('-timestamp').first()` applied to the kind-filtered rows:
the timestamp of the most recent record of kind `t`, if any. -/
def lastViolationTimestamp (log : List ViolationLog) (t : String) : Option ℚ :=
  maxTimestamp (kindLog log t)

/-- The debounce check of views.py lines 153-154 / 235-236:
`if not last_v or (now - last_v.timestamp).total_seconds() > window`. -/
def debounceOk (log : List ViolationLog) (t : String) (now window : ℚ) : Bool :=
  match lastViolationTimestamp log t with
  | none => true
  | some ts => decide (window < now - ts)

/-- The classifier verdict consumed by `process_frame`
(`analysis['status']`): `'no_face'`, `'multiple_faces'`, or anything else
(the `else: # OK` branch). -/
inductive FaceStatus where
  | no_face
  | multiple_faces
  | ok
deriving DecidableEq, Repr

/-- views.py lines 117-185, `process_frame`, after the external classifier
has produced `status`.  Returns the updated store and the `violation` field
of the JSON response (`violation.violation_type if violation else None`);
an unknown/inactive session (`Invalid Session`, 404) leaves the store
unchanged and is modelled as a `none` violation field. -/
def process_frame (store : Store) (sid : Nat) (frame_data : String)
    (status : FaceStatus) (now : ℚ) : Store × Option String :=
  match get_session store sid with
  | none => (store, none)
  | some session =>
    let upd : InterviewSession × Option String :=
      match status with
      | .no_face =>
        let time_since_last := now - session.last_face_seen
        if FACE_ABSENCE_THRESHOLD_SECONDS < time_since_last then
          if debounceOk session.violations "FACE_MISSING" now 2 then
            ({ session with violations := session.violations ++
                 [⟨"FACE_MISSING", now, .faceMissing time_since_last⟩] },
             some "FACE_MISSING")
          else (session, none)
        else (session, none)
      | .multiple_faces =>
        ({ session with
            last_face_seen := now,
            violations := session.violations ++
              [⟨"MULTIPLE_FACES", now, .multipleFaces⟩] },
         some "MULTIPLE_FACES")
      | .ok => ({ session with last_face_seen := now }, none)
    let session2 := { upd.1 with latest_frame := some frame_data }
    (setSession store sid session2, upd.2)

/-- views.py lines 105-110: the risk tier from the (raw, unclamped) score. -/
def classifyRisk (score : Int) : String :=
  if score > 85 then "Green" else if score > 50 then "Yellow" else "Red"

/-- views.py lines 96-100: `score = 100`, then
`score -= VIOLATION_PENALTIES.get(v.violation_type, 0)` over all rows. -/
def computeScore (log : List ViolationLog) : Int :=
  log.foldl (fun acc v => acc - violationPenalty v.violation_type) 100

/-- The JSON response of `end_interview`: either
`{'status':'success','final_score':…,'risk_level':…}` or
`{'status':'error','message':…}` with an HTTP status code. -/
inductive EndResponse where
  | success (final_score : Int) (risk_level : String)
  | error (message : String) (status : Nat)
deriving DecidableEq, Repr

/-- views.py lines 83-115, `end_interview`.  Through `get_session` an
unknown OR already-inactive id gives `('Session not found', 404)`.
Otherwise: deactivate, set `end_time`, fold the penalties, store
`max(0, score)` and the tier of the raw score, and answer with the stored
values. -/
def end_interview (store : Store) (sid : Nat) (now : ℚ) : Store × EndResponse :=
  match get_session store sid with
  | none => (store, .error "Session not found" 404)
  | some session =>
    let score := computeScore session.violations
    let session' := { session with
      is_active := false,
      end_time := some now,
      final_score := max 0 score,
      violation_count := session.violations.length,
      risk_level := classifyRisk score }
    (setSession store sid session', .success (max 0 score) (classifyRisk score))

/-- The JSON response of `send_audio_activity`: success carries the
`violation` field, error is the 400 fall-through. -/
inductive AudioResponse where
  | success (violation : Option String)
  | error
deriving DecidableEq, Repr

/-- views.py lines 218-244, `send_audio_activity`.  Not silent: stamp
`last_audio_activity = now` and save.  Silent: `last_audio_activity` is NOT
updated; a violation row is created only when the elapsed silence strictly
exceeds the threshold and the 5-second debounce check passes. -/
def send_audio_activity (store : Store) (sid : Nat) (is_silent : Bool)
    (now : ℚ) : Store × AudioResponse :=
  match get_session store sid with
  | none => (store, .error)
  | some session =>
    if !is_silent then
      (setSession store sid { session with last_audio_activity := now },
       .success none)
    else
      let time_since_active := now - session.last_audio_activity
      if SILENCE_THRESHOLD_SECONDS < time_since_active then
        if debounceOk session.violations "AUDIO_SILENCE" now 5 then
          (setSession store sid { session with violations :=
              session.violations ++
                [⟨"AUDIO_SILENCE", now, .silence time_since_active⟩] },
           .success (some "AUDIO_SILENCE"))
        else (store, .success none)
      else (store, .success none)

/-- The JSON response of `log_tab_switch`. -/
inductive TabResponse where
  | success
  | error
deriving DecidableEq, Repr

/-- views.py lines 201-216, `log_tab_switch`: when the session is active a
TAB_SWITCH row is created unconditionally (no debounce, no threshold);
otherwise nothing is written and the 400 error is returned. -/
def log_tab_switch (store : Store) (sid : Nat) (event_type : String)
    (now : ℚ) : Store × TabResponse :=
  match get_session store sid with
  | none => (store, .error)
  | some session =>
    (setSession store sid { session with violations :=
        session.violations ++ [⟨"TAB_SWITCH", now, .page event_type⟩] },
     .success)

/-- One external event hitting the engine. -/
inductive Event where
  | frame (sid : Nat) (frame_data : String) (status : FaceStatus) (now : ℚ)
  | audio (sid : Nat) (is_silent : Bool) (now : ℚ)
  | tab (sid : Nat) (event_type : String) (now : ℚ)
  | finalize (sid : Nat) (now : ℚ)
deriving DecidableEq, Repr

/-- The store after one event (responses discarded). -/
def stepEvent (store : Store) : Event → Store
  | .frame sid fd st now => (process_frame store sid fd st now).1
  | .audio sid sil now => (send_audio_activity store sid sil now).1
  | .tab sid et now => (log_tab_switch store sid et now).1
  | .finalize sid now => (end_interview store sid now).1

/-- The store after a sequence of events. -/
def runEvents (store : Store) (es : List Event) : Store :=
  es.foldl stepEvent store

/-- The violation rows of session `sid` ([] when the id is unknown). -/
def sessionViolations (store : Store) (sid : Nat) : List ViolationLog :=
  match lookupSession sid store.sessions with
  | some s => s.violations
  | none => []

/-- Two same-kind rows separated by strictly more than the window `w`
(earlier row first). -/
def KindGap (w : ℚ) (a b : ViolationLog) : Prop :=
  a.timestamp + w < b.timestamp

instance (w : ℚ) : DecidableRel (KindGap w) := fun a b => by
  unfold KindGap; infer_instance

/-- The debounce invariant of one session's log: consecutive (indeed all
pairs of) FACE_MISSING rows are more than 2 s apart, AUDIO_SILENCE rows
more than 5 s apart. -/
def LogDebounced (log : List ViolationLog) : Prop :=
  (kindLog log "FACE_MISSING").Pairwise (KindGap 2) ∧
  (kindLog log "AUDIO_SILENCE").Pairwise (KindGap 5)

instance (log : List ViolationLog) : Decidable (LogDebounced log) := by
  unfold LogDebounced; infer_instance

/-- The debounce invariant over every session of the store. -/
def StoreDebounced (store : Store) : Prop :=
  ∀ p ∈ store.sessions, LogDebounced p.2.violations

instance (store : Store) : Decidable (StoreDebounced store) :=
  List.decidableBAll _ _

/-! ### Basic lemmas about the store -/

theorem lookupSession_mem {sid : Nat} {l : List (Nat × InterviewSession)}
    {s : InterviewSession} (h : lookupSession sid l = some s) : (sid, s) ∈ l := by
  induction l with
  | nil => simp [lookupSession] at h
  | cons p tl ih =>
    obtain ⟨k, v⟩ := p
    by_cases hk : k = sid
    · subst hk
      simp [lookupSession] at h
      subst h
      exact List.mem_cons_self _ _
    · simp [lookupSession, hk] at h
      exact List.mem_cons_of_mem _ (ih h)

theorem lookupSession_setSessionList (sid : Nat) (s' : InterviewSession)
    (l : List (Nat × InterviewSession)) :
    lookupSession sid (setSessionList sid s' l)
      = (lookupSession sid l).map fun _ => s' := by
  induction l with
  | nil => simp [lookupSession, setSessionList]
  | cons p tl ih =>
    obtain ⟨k, v⟩ := p
    by_cases hk : k = sid
    · subst hk
      simp only [setSessionList, if_pos rfl]
      simp [lookupSession, ih]
    · simp only [setSessionList, if_neg hk]
      simp [lookupSession, hk, ih]

theorem lookupSession_setSession (store : Store) (sid : Nat)
    (s' : InterviewSession) :
    lookupSession sid (setSession store sid s').sessions
      = (lookupSession sid store.sessions).map fun _ => s' :=
  lookupSession_setSessionList sid s' store.sessions

theorem mem_setSessionList {sid : Nat} {s' : InterviewSession}
    {l : List (Nat × InterviewSession)} {p : Nat × InterviewSession}
    (h : p ∈ setSessionList sid s' l) : p ∈ l ∨ p.2 = s' := by
  induction l with
  | nil => simp [setSessionList] at h
  | cons q tl ih =>
    obtain ⟨k, v⟩ := q
    simp only [setSessionList, List.mem_cons] at h
    rcases h with h | h
    · by_cases hk : k = sid
      · right
        rw [if_pos hk] at h
        rw [h]
      · left
        rw [if_neg hk] at h
        exact List.mem_cons.mpr (Or.inl h)
    · rcases ih h with h2 | h2
      · exact Or.inl (List.mem_cons_of_mem _ h2)
      · exact Or.inr h2

theorem mem_setSession {store : Store} {sid : Nat} {s' : InterviewSession}
    {p : Nat × InterviewSession} (h : p ∈ (setSession store sid s').sessions) :
    p ∈ store.sessions ∨ p.2 = s' :=
  mem_setSessionList h

theorem get_session_eq_some {store : Store} {sid : Nat} {s : InterviewSession}
    (h : get_session store sid = some s) :
    lookupSession sid store.sessions = some s ∧ s.is_active = true := by
  unfold get_session at h
  split at h
  · rename_i t hl
    by_cases ha : t.is_active = true
    · rw [if_pos ha] at h
      cases h
      exact ⟨hl, ha⟩
    · rw [if_neg ha] at h
      cases h
  · cases h

/-! ### Lemmas about timestamps and the debounce check -/

theorem maxTimestamp_eq_none {l : List ViolationLog} :
    maxTimestamp l = none ↔ l = [] := by
  cases l with
  | nil => simp [maxTimestamp]
  | cons v tl =>
    simp only [maxTimestamp]
    cases maxTimestamp tl <;> simp

theorem le_maxTimestamp {l : List ViolationLog} {m : ℚ}
    (h : maxTimestamp l = some m) : ∀ v ∈ l, v.timestamp ≤ m := by
  induction l generalizing m with
  | nil => simp
  | cons v tl ih =>
    intro x hx
    cases htl : maxTimestamp tl with
    | none =>
      simp only [maxTimestamp, htl] at h
      have htl2 : tl = [] := maxTimestamp_eq_none.mp htl
      subst htl2
      rcases List.mem_cons.mp hx with hx | hx
      · subst hx
        simp at h
        exact le_of_eq h
      · simp at hx
    | some m2 =>
      simp only [maxTimestamp, htl] at h
      simp at h
      subst h
      rcases List.mem_cons.mp hx with hx | hx
      · subst hx; exact le_max_left _ _
      · exact le_trans (ih htl x hx) (le_max_right _ _)

theorem maxTimestamp_mem {l : List ViolationLog} {m : ℚ}
    (h : maxTimestamp l = some m) : ∃ v ∈ l, v.timestamp = m := by
  induction l generalizing m with
  | nil => simp [maxTimestamp] at h
  | cons v tl ih =>
    cases htl : maxTimestamp tl with
    | none =>
      simp only [maxTimestamp, htl] at h
      simp at h
      exact ⟨v, List.mem_cons_self _ _, by rw [h]⟩
    | some m2 =>
      simp only [maxTimestamp, htl] at h
      simp at h
      subst h
      rcases le_total v.timestamp m2 with hle | hle
      · obtain ⟨x, hx, hxm⟩ := ih htl
        exact ⟨x, List.mem_cons_of_mem _ hx, by rw [hxm, max_eq_right hle]⟩
      · exact ⟨v, List.mem_cons_self _ _, (max_eq_left hle).symm⟩

theorem mem_kindLog {log : List ViolationLog} {t : String} {v : ViolationLog} :
    v ∈ kindLog log t ↔ v ∈ log ∧ v.violation_type = t := by
  simp [kindLog, List.mem_filter]

theorem debounceOk_bound {log : List ViolationLog} {t : String} {now w : ℚ}
    (h : debounceOk log t now w = true) :
    ∀ v ∈ kindLog log t, v.timestamp + w < now := by
  intro v hv
  unfold debounceOk lastViolationTimestamp at h
  cases hm : maxTimestamp (kindLog log t) with
  | none =>
    have : kindLog log t = [] := maxTimestamp_eq_none.mp hm
    rw [this] at hv
    simp at hv
  | some m =>
    rw [hm] at h
    simp at h
    have hle := le_maxTimestamp hm v hv
    linarith

theorem debounceOk_iff (log : List ViolationLog) (t : String) (now w : ℚ) :
    debounceOk log t now w = true ↔
      ∀ v ∈ log, v.violation_type = t → w < now - v.timestamp := by
  constructor
  · intro h v hv ht
    have := debounceOk_bound h v (mem_kindLog.mpr ⟨hv, ht⟩)
    linarith
  · intro h
    unfold debounceOk lastViolationTimestamp
    cases hm : maxTimestamp (kindLog log t) with
    | none => rfl
    | some m =>
      obtain ⟨v, hv, hvm⟩ := maxTimestamp_mem hm
      obtain ⟨hvl, hvt⟩ := mem_kindLog.mp hv
      have := h v hvl hvt
      simp
      linarith

/-! ### Branch characterizations of the four entry points -/

theorem process_frame_not_found {store : Store} {sid : Nat} (fd : String)
    (st : FaceStatus) (now : ℚ) (h : get_session store sid = none) :
    process_frame store sid fd st now = (store, none) := by
  unfold process_frame
  rw [h]

theorem process_frame_no_face_record {store : Store} {sid : Nat}
    {s : InterviewSession} (fd : String) {now : ℚ}
    (h : get_session store sid = some s)
    (h1 : FACE_ABSENCE_THRESHOLD_SECONDS < now - s.last_face_seen)
    (h2 : debounceOk s.violations "FACE_MISSING" now 2 = true) :
    process_frame store sid fd .no_face now =
      (setSession store sid { s with
          violations := s.violations ++
            [⟨"FACE_MISSING", now, .faceMissing (now - s.last_face_seen)⟩],
          latest_frame := some fd },
       some "FACE_MISSING") := by
  unfold process_frame
  rw [h]
  dsimp only
  rw [if_pos h1, if_pos h2]

theorem process_frame_no_face_debounced {store : Store} {sid : Nat}
    {s : InterviewSession} (fd : String) {now : ℚ}
    (h : get_session store sid = some s)
    (h1 : FACE_ABSENCE_THRESHOLD_SECONDS < now - s.last_face_seen)
    (h2 : ¬ debounceOk s.violations "FACE_MISSING" now 2 = true) :
    process_frame store sid fd .no_face now =
      (setSession store sid { s with latest_frame := some fd }, none) := by
  unfold process_frame
  rw [h]
  dsimp only
  rw [if_pos h1, if_neg h2]

theorem process_frame_no_face_within {store : Store} {sid : Nat}
    {s : InterviewSession} (fd : String) {now : ℚ}
    (h : get_session store sid = some s)
    (h1 : ¬ FACE_ABSENCE_THRESHOLD_SECONDS < now - s.last_face_seen) :
    process_frame store sid fd .no_face now =
      (setSession store sid { s with latest_frame := some fd }, none) := by
  unfold process_frame
  rw [h]
  dsimp only
  rw [if_neg h1]

theorem process_frame_multiple {store : Store} {sid : Nat}
    {s : InterviewSession} (fd : String) (now : ℚ)
    (h : get_session store sid = some s) :
    process_frame store sid fd .multiple_faces now =
      (setSession store sid { s with
          last_face_seen := now,
          violations := s.violations ++
            [⟨"MULTIPLE_FACES", now, .multipleFaces⟩],
          latest_frame := some fd },
       some "MULTIPLE_FACES") := by
  unfold process_frame
  rw [h]

theorem process_frame_ok {store : Store} {sid : Nat}
    {s : InterviewSession} (fd : String) (now : ℚ)
    (h : get_session store sid = some s) :
    process_frame store sid fd .ok now =
      (setSession store sid { s with
          last_face_seen := now, latest_frame := some fd }, none) := by
  unfold process_frame
  rw [h]

theorem end_interview_not_found {store : Store} {sid : Nat} (now : ℚ)
    (h : get_session store sid = none) :
    end_interview store sid now = (store, .error "Session not found" 404) := by
  unfold end_interview
  rw [h]

theorem end_interview_found {store : Store} {sid : Nat}
    {s : InterviewSession} (now : ℚ) (h : get_session store sid = some s) :
    end_interview store sid now =
      (setSession store sid { s with
          is_active := false,
          end_time := some now,
          final_score := max 0 (computeScore s.violations),
          violation_count := s.violations.length,
          risk_level := classifyRisk (computeScore s.violations) },
       .success (max 0 (computeScore s.violations))
         (classifyRisk (computeScore s.violations))) := by
  unfold end_interview
  rw [h]

theorem send_audio_not_found {store : Store} {sid : Nat} (sil : Bool)
    (now : ℚ) (h : get_session store sid = none) :
    send_audio_activity store sid sil now = (store, .error) := by
  unfold send_audio_activity
  rw [h]

theorem send_audio_active {store : Store} {sid : Nat}
    {s : InterviewSession} (now : ℚ) (h : get_session store sid = some s) :
    send_audio_activity store sid false now =
      (setSession store sid { s with last_audio_activity := now },
       .success none) := by
  unfold send_audio_activity
  rw [h]
  dsimp only
  rw [if_pos (by simp : (!false) = true)]

theorem send_audio_silent_record {store : Store} {sid : Nat}
    {s : InterviewSession} {now : ℚ} (h : get_session store sid = some s)
    (h1 : SILENCE_THRESHOLD_SECONDS < now - s.last_audio_activity)
    (h2 : debounceOk s.violations "AUDIO_SILENCE" now 5 = true) :
    send_audio_activity store sid true now =
      (setSession store sid { s with
          violations := s.violations ++
            [⟨"AUDIO_SILENCE", now, .silence (now - s.last_audio_activity)⟩] },
       .success (some "AUDIO_SILENCE")) := by
  unfold send_audio_activity
  rw [h]
  dsimp only
  rw [if_neg (by simp : ¬ (!true) = true), if_pos h1, if_pos h2]

theorem send_audio_silent_suppressed {store : Store} {sid : Nat}
    {s : InterviewSession} {now : ℚ} (h : get_session store sid = some s)
    (h12 : ¬ (SILENCE_THRESHOLD_SECONDS < now - s.last_audio_activity ∧
      debounceOk s.violations "AUDIO_SILENCE" now 5 = true)) :
    send_audio_activity store sid true now = (store, .success none) := by
  unfold send_audio_activity
  rw [h]
  dsimp only
  rw [if_neg (by simp : ¬ (!true) = true)]
  by_cases h1 : SILENCE_THRESHOLD_SECONDS < now - s.last_audio_activity
  · rw [if_pos h1, if_neg (fun h2 => h12 ⟨h1, h2⟩)]
  · rw [if_neg h1]

theorem log_tab_switch_not_found {store : Store} {sid : Nat} (et : String)
    (now : ℚ) (h : get_session store sid = none) :
    log_tab_switch store sid et now = (store, .error) := by
  unfold log_tab_switch
  rw [h]

theorem log_tab_switch_found {store : Store} {sid : Nat}
    {s : InterviewSession} (et : String) (now : ℚ)
    (h : get_session store sid = some s) :
    log_tab_switch store sid et now =
      (setSession store sid { s with
          violations := s.violations ++ [⟨"TAB_SWITCH", now, .page et⟩] },
       .success) := by
  unfold log_tab_switch
  rw [h]

/-! ### Preservation of the debounce invariant -/

theorem kindLog_append_same {r : ViolationLog} {t : String}
    (hr : r.violation_type = t) (log : List ViolationLog) :
    kindLog (log ++ [r]) t = kindLog log t ++ [r] := by
  simp [kindLog, List.filter_append, hr]

theorem kindLog_append_other {r : ViolationLog} {t : String}
    (hr : r.violation_type ≠ t) (log : List ViolationLog) :
    kindLog (log ++ [r]) t = kindLog log t := by
  simp [kindLog, List.filter_append, hr]

theorem pairwise_kindGap_append {log : List ViolationLog} {t : String}
    {now w : ℚ} (hp : (kindLog log t).Pairwise (KindGap w))
    (hdb : debounceOk log t now w = true) (d : ViolationDetails) :
    (kindLog (log ++ [⟨t, now, d⟩]) t).Pairwise (KindGap w) := by
  rw [kindLog_append_same rfl]
  rw [List.pairwise_append]
  refine ⟨hp, List.pairwise_singleton _ _, ?_⟩
  intro a ha b hb
  simp at hb
  subst hb
  exact debounceOk_bound hdb a ha

theorem logDebounced_append_face {log : List ViolationLog} {now : ℚ}
    (h : LogDebounced log)
    (hdb : debounceOk log "FACE_MISSING" now 2 = true) (d : ViolationDetails) :
    LogDebounced (log ++ [⟨"FACE_MISSING", now, d⟩]) := by
  refine ⟨pairwise_kindGap_append h.1 hdb d, ?_⟩
  rw [kindLog_append_other (by simp) log]
  exact h.2

theorem logDebounced_append_audio {log : List ViolationLog} {now : ℚ}
    (h : LogDebounced log)
    (hdb : debounceOk log "AUDIO_SILENCE" now 5 = true) (d : ViolationDetails) :
    LogDebounced (log ++ [⟨"AUDIO_SILENCE", now, d⟩]) := by
  refine ⟨?_, pairwise_kindGap_append h.2 hdb d⟩
  rw [kindLog_append_other (by simp) log]
  exact h.1

theorem logDebounced_append_other {log : List ViolationLog}
    {r : ViolationLog} (h : LogDebounced log)
    (h1 : r.violation_type ≠ "FACE_MISSING")
    (h2 : r.violation_type ≠ "AUDIO_SILENCE") :
    LogDebounced (log ++ [r]) := by
  constructor
  · rw [kindLog_append_other h1 log]; exact h.1
  · rw [kindLog_append_other h2 log]; exact h.2

theorem logDebounced_of_get {store : Store} {sid : Nat}
    {s : InterviewSession} (hs : StoreDebounced store)
    (h : get_session store sid = some s) : LogDebounced s.violations :=
  hs (sid, s) (lookupSession_mem (get_session_eq_some h).1)

theorem storeDebounced_setSession {store : Store} {sid : Nat}
    {s' : InterviewSession} (h : StoreDebounced store)
    (h2 : LogDebounced s'.violations) :
    StoreDebounced (setSession store sid s') := by
  intro p hp
  rcases mem_setSession hp with hp | hp
  · exact h p hp
  · rw [hp]; exact h2

theorem stepEvent_debounced {store : Store} (e : Event)
    (h : StoreDebounced store) : StoreDebounced (stepEvent store e) := by
  cases e with
  | frame sid fd st now =>
    show StoreDebounced (process_frame store sid fd st now).1
    cases hg : get_session store sid with
    | none => rw [process_frame_not_found fd st now hg]; exact h
    | some s =>
      have hld := logDebounced_of_get h hg
      cases st with
      | no_face =>
        by_cases h1 : FACE_ABSENCE_THRESHOLD_SECONDS < now - s.last_face_seen
        · by_cases h2 : debounceOk s.violations "FACE_MISSING" now 2 = true
          · rw [process_frame_no_face_record fd hg h1 h2]
            exact storeDebounced_setSession h (logDebounced_append_face hld h2 _)
          · rw [process_frame_no_face_debounced fd hg h1 h2]
            exact storeDebounced_setSession h hld
        · rw [process_frame_no_face_within fd hg h1]
          exact storeDebounced_setSession h hld
      | multiple_faces =>
        rw [process_frame_multiple fd now hg]
        exact storeDebounced_setSession h
          (logDebounced_append_other hld (by simp) (by simp))
      | ok =>
        rw [process_frame_ok fd now hg]
        exact storeDebounced_setSession h hld
  | audio sid sil now =>
    show StoreDebounced (send_audio_activity store sid sil now).1
    cases hg : get_session store sid with
    | none => rw [send_audio_not_found sil now hg]; exact h
    | some s =>
      have hld := logDebounced_of_get h hg
      cases sil with
      | false =>
        rw [send_audio_active now hg]
        exact storeDebounced_setSession h hld
      | true =>
        by_cases h12 : SILENCE_THRESHOLD_SECONDS < now - s.last_audio_activity ∧
            debounceOk s.violations "AUDIO_SILENCE" now 5 = true
        · rw [send_audio_silent_record hg h12.1 h12.2]
          exact storeDebounced_setSession h
            (logDebounced_append_audio hld h12.2 _)
        · rw [send_audio_silent_suppressed hg h12]
          exact h
  | tab sid et now =>
    show StoreDebounced (log_tab_switch store sid et now).1
    cases hg : get_session store sid with
    | none => rw [log_tab_switch_not_found et now hg]; exact h
    | some s =>
      have hld := logDebounced_of_get h hg
      rw [log_tab_switch_found et now hg]
      exact storeDebounced_setSession h
        (logDebounced_append_other hld (by simp) (by simp))
  | finalize sid now =>
    show StoreDebounced (end_interview store sid now).1
    cases hg : get_session store sid with
    | none => rw [end_interview_not_found now hg]; exact h
    | some s =>
      have hld := logDebounced_of_get h hg
      rw [end_interview_found now hg]
      exact storeDebounced_setSession h hld

theorem runEvents_debounced (es : List Event) {store : Store}
    (h : StoreDebounced store) : StoreDebounced (runEvents store es) := by
  induction es generalizing store with
  | nil => exact h
  | cons e tl ih => exact ih (stepEvent_debounced e h)

/-! ### Concrete fixtures -/

/-- A concrete active session: one TAB_SWITCH row and one row of an unknown
kind, so the fold exercises both a known penalty and the `get(…, 0)`
default. -/
def sampleSession : InterviewSession :=
  { is_active := true, last_face_seen := 0, last_audio_activity := 0,
    final_score := 100, violation_count := 0, risk_level := "Green",
    end_time := none, latest_frame := none,
    violations := [⟨"TAB_SWITCH", 1, .page "blur"⟩,
                   ⟨"MYSTERY_KIND", 2, .page "x"⟩] }

/-- A store holding `sampleSession` under id 1. -/
def sampleStore : Store := ⟨[(1, sampleSession)]⟩

/-! ### The claims -/

/-- C1: `end_interview` computes the final score as a fold over the
session's violation log: start at 100, subtract the fixed per-kind penalty
for each record (FACE_MISSING:5, MULTIPLE_FACES:10, FACE_ORIENTATION:2,
AUDIO_SILENCE:5, TAB_SWITCH:8, unknown kinds 0), and store the result
clamped to a minimum of 0. -/
theorem C1_final_score_fold (store : Store) (sid : Nat) (s : InterviewSession)
    (now : ℚ) (h : get_session store sid = some s) :
    (end_interview store sid now).2
      = .success (max 0 (computeScore s.violations))
          (classifyRisk (computeScore s.violations)) ∧
    (lookupSession sid (end_interview store sid now).1.sessions).map
        (fun x => x.final_score)
      = some (max 0 (computeScore s.violations)) ∧
    computeScore s.violations
      = s.violations.foldl
          (fun acc v => acc - violationPenalty v.violation_type) 100 ∧
    violationPenalty "FACE_MISSING" = 5 ∧
    violationPenalty "MULTIPLE_FACES" = 10 ∧
    violationPenalty "FACE_ORIENTATION" = 2 ∧
    violationPenalty "AUDIO_SILENCE" = 5 ∧
    violationPenalty "TAB_SWITCH" = 8 ∧
    (∀ t : String, t ≠ "FACE_MISSING" → t ≠ "MULTIPLE_FACES" →
      t ≠ "FACE_ORIENTATION" → t ≠ "AUDIO_SILENCE" → t ≠ "TAB_SWITCH" →
      violationPenalty t = 0) := by
  have hl := (get_session_eq_some h).1
  rw [end_interview_found now h]
  refine ⟨rfl, ?_, rfl, rfl, rfl, rfl, rfl, rfl, ?_⟩
  · show (lookupSession sid (setSession store sid _).sessions).map _ = _
    rw [lookupSession_setSession, hl]
    rfl
  · intro t h1 h2 h3 h4 h5
    simp [violationPenalty, h1, h2, h3, h4, h5]

/-- Witness for C1 on the sample store: 100 - 8 (TAB_SWITCH) - 0
(unknown kind) = 92. -/
theorem C1_witness :
    (end_interview sampleStore 1 9).2 = .success 92 "Green" := by
  have h := (C1_final_score_fold sampleStore 1 sampleSession 9 rfl).1
  rw [h]
  decide

/-- C2: the risk tier assigned at finalization obeys strict boundaries on
the (raw) score: score > 85 is Green, 50 < score ≤ 85 is Yellow,
score ≤ 50 is Red; in particular 85 is Yellow and 50 is Red. -/
theorem C2_risk_boundaries (store : Store) (sid : Nat) (s : InterviewSession)
    (now : ℚ) (h : get_session store sid = some s) :
    (∀ sc : Int,
      (classifyRisk sc = "Green" ↔ 85 < sc) ∧
      (classifyRisk sc = "Yellow" ↔ 50 < sc ∧ sc ≤ 85) ∧
      (classifyRisk sc = "Red" ↔ sc ≤ 50)) ∧
    classifyRisk 85 = "Yellow" ∧ classifyRisk 50 = "Red" ∧
    (lookupSession sid (end_interview store sid now).1.sessions).map
        (fun x => x.risk_level)
      = some (classifyRisk (computeScore s.violations)) := by
  have hl := (get_session_eq_some h).1
  refine ⟨?_, by decide, by decide, ?_⟩
  · intro sc
    unfold classifyRisk
    split_ifs with hg hy
    · refine ⟨?_, ?_, ?_⟩ <;> simp <;> omega
    · refine ⟨?_, ?_, ?_⟩ <;> simp <;> omega
    · refine ⟨?_, ?_, ?_⟩ <;> simp <;> omega
  · rw [end_interview_found now h]
    show (lookupSession sid (setSession store sid _).sessions).map _ = _
    rw [lookupSession_setSession, hl]
    rfl

/-- Witness for C2: the boundary scores on concrete inputs, and the tier
stored for the sample store. -/
theorem C2_witness :
    classifyRisk 86 = "Green" ∧ classifyRisk 85 = "Yellow" ∧
    classifyRisk 51 = "Yellow" ∧ classifyRisk 50 = "Red" ∧
    (lookupSession 1 (end_interview sampleStore 1 9).1.sessions).map
        (fun x => x.risk_level) = some "Green" := by
  have h := C2_risk_boundaries sampleStore 1 sampleSession 9 rfl
  refine ⟨(h.1 86).1.mpr (by decide), h.2.1, (h.1 51).2.1.mpr (by decide),
    h.2.2.1, ?_⟩
  rw [h.2.2.2]
  decide

/-- Whether the raw score or its clamp to 0 is classified makes no
difference: a negative raw score and 0 both fall in the Red tier. -/
theorem classifyRisk_clamp (n : Int) :
    classifyRisk n = classifyRisk (max 0 n) := by
  rcases le_or_lt 0 n with hn | hn
  · rw [max_eq_right hn]
  · rw [max_eq_left hn.le]
    unfold classifyRisk
    split_ifs <;> first | rfl | (exfalso; omega)

/-- C10 (implicit): `end_interview` classifies the raw (unclamped) score
while storing the clamped one, and the two classifications always agree,
because a raw score changed by clamping is negative, hence at most 50,
hence Red either way. -/
theorem C10_raw_vs_clamped_classification (store : Store) (sid : Nat)
    (s : InterviewSession) (now : ℚ) (h : get_session store sid = some s) :
    (lookupSession sid (end_interview store sid now).1.sessions).map
        (fun x => (x.final_score, x.risk_level))
      = some (max 0 (computeScore s.violations),
          classifyRisk (computeScore s.violations)) ∧
    classifyRisk (computeScore s.violations)
      = classifyRisk (max 0 (computeScore s.violations)) ∧
    (∀ log : List ViolationLog,
      classifyRisk (computeScore log)
        = classifyRisk (max 0 (computeScore log))) := by
  have hl := (get_session_eq_some h).1
  refine ⟨?_, classifyRisk_clamp _, fun log => classifyRisk_clamp _⟩
  rw [end_interview_found now h]
  show (lookupSession sid (setSession store sid _).sessions).map _ = _
  rw [lookupSession_setSession, hl]
  rfl

/-- Witness for C10 on the sample store. -/
theorem C10_witness :
    (lookupSession 1 (end_interview sampleStore 1 9).1.sessions).map
        (fun x => (x.final_score, x.risk_level)) = some (92, "Green") := by
  have h := (C10_raw_vs_clamped_classification sampleStore 1 sampleSession
    9 rfl).1
  rw [h]
  decide

/-- After a successful finalization the session is inactive, so
`get_session` — and with it every entry point — no longer sees it. -/
theorem get_session_after_end {store : Store} {sid : Nat}
    {s : InterviewSession} (now : ℚ) (h : get_session store sid = some s) :
    get_session (end_interview store sid now).1 sid = none := by
  have hl := (get_session_eq_some h).1
  rw [end_interview_found now h]
  unfold get_session
  rw [lookupSession_setSession, hl]
  simp

/-- C4 counterexample: after a first successful finalization of session 1,
a second `end_interview` call answers with the generic
`('Session not found', 404)` response — byte-identical to the response for
the unknown id 99 — not with a distinct AlreadyFinalized error. -/
theorem C4_counterexample :
    (end_interview (end_interview sampleStore 1 5).1 1 6).2
        = .error "Session not found" 404 ∧
    (end_interview (end_interview sampleStore 1 5).1 1 6).2
        = (end_interview (end_interview sampleStore 1 5).1 99 6).2 := by
  decide

/-- C4 (amended): the first `end_interview` on an active session succeeds
and stores the score it returns; a second call on the same id fails with
the same `('Session not found', 404)` error as an unknown id (there is no
distinct AlreadyFinalized error) and leaves the store — hence the stored
score and risk level — unchanged. -/
theorem C4_amended_second_finalize (store : Store) (sid : Nat)
    (s : InterviewSession) (now now2 : ℚ)
    (h : get_session store sid = some s) :
    (end_interview store sid now).2
      = .success (max 0 (computeScore s.violations))
          (classifyRisk (computeScore s.violations)) ∧
    (lookupSession sid (end_interview store sid now).1.sessions).map
        (fun x => (x.final_score, x.risk_level))
      = some (max 0 (computeScore s.violations),
          classifyRisk (computeScore s.violations)) ∧
    (end_interview (end_interview store sid now).1 sid now2).2
      = .error "Session not found" 404 ∧
    (end_interview (end_interview store sid now).1 sid now2).1
      = (end_interview store sid now).1 := by
  have hl := (get_session_eq_some h).1
  refine ⟨?_, ?_, ?_, ?_⟩
  · rw [end_interview_found now h]
  · rw [end_interview_found now h]
    show (lookupSession sid (setSession store sid _).sessions).map _ = _
    rw [lookupSession_setSession, hl]
    rfl
  · rw [end_interview_not_found now2 (get_session_after_end now h)]
  · rw [end_interview_not_found now2 (get_session_after_end now h)]

/-- Witness for the amended C4 on the sample store. -/
theorem C4_witness :
    (end_interview sampleStore 1 5).2 = .success 92 "Green" ∧
    (end_interview (end_interview sampleStore 1 5).1 1 6).1
      = (end_interview sampleStore 1 5).1 := by
  have h := C4_amended_second_finalize sampleStore 1 sampleSession 5 6 rfl
  exact ⟨by rw [h.1]; decide, h.2.2.2⟩

/-- C5: with the FACE_MISSING debounce check passing (in particular when no
FACE_MISSING record exists), an `absent` (no_face) observation at `now`
produces a violation — and exactly one appended record — if and only if
`now - lastFaceSeen` strictly exceeds FACE_ABSENCE_THRESHOLD_SECONDS; at or
below the threshold nothing is recorded (the boundary is exclusive). -/
theorem C5_face_absence_boundary (store : Store) (sid : Nat)
    (s : InterviewSession) (fd : String) (now : ℚ)
    (h : get_session store sid = some s)
    (hdb : debounceOk s.violations "FACE_MISSING" now 2 = true) :
    ((process_frame store sid fd .no_face now).2 = some "FACE_MISSING" ↔
      FACE_ABSENCE_THRESHOLD_SECONDS < now - s.last_face_seen) ∧
    (FACE_ABSENCE_THRESHOLD_SECONDS < now - s.last_face_seen →
      sessionViolations (process_frame store sid fd .no_face now).1 sid
        = s.violations ++
            [⟨"FACE_MISSING", now, .faceMissing (now - s.last_face_seen)⟩]) ∧
    (¬ FACE_ABSENCE_THRESHOLD_SECONDS < now - s.last_face_seen →
      sessionViolations (process_frame store sid fd .no_face now).1 sid
        = s.violations) := by
  have hl := (get_session_eq_some h).1
  by_cases h1 : FACE_ABSENCE_THRESHOLD_SECONDS < now - s.last_face_seen
  · rw [process_frame_no_face_record fd h h1 hdb]
    refine ⟨by simp [h1], fun _ => ?_, fun hc => absurd h1 hc⟩
    unfold sessionViolations
    rw [lookupSession_setSession, hl]
    rfl
  · rw [process_frame_no_face_within fd h h1]
    refine ⟨by simp [h1], fun hc => absurd hc h1, fun _ => ?_⟩
    unfold sessionViolations
    rw [lookupSession_setSession, hl]
    rfl

/-- Witness for C5: `lastFaceSeen = 0`, threshold 2; an observation at
`2 - 1/2` records nothing, one at `2 + 1/2` appends exactly one
FACE_MISSING record. -/
theorem C5_witness :
    sessionViolations (process_frame sampleStore 1 "f" .no_face (3/2)).1 1
      = sampleSession.violations ∧
    sessionViolations (process_frame sampleStore 1 "f" .no_face (5/2)).1 1
      = sampleSession.violations
        ++ [⟨"FACE_MISSING", 5/2,
             .faceMissing (5/2 - sampleSession.last_face_seen)⟩] := by
  constructor
  · exact (C5_face_absence_boundary sampleStore 1 sampleSession "f" (3/2)
      rfl (by decide)).2.2 (by show ¬ (2:ℚ) < 3/2 - 0; norm_num)
  · exact (C5_face_absence_boundary sampleStore 1 sampleSession "f" (5/2)
      rfl (by decide)).2.1 (by show (2:ℚ) < 5/2 - 0; norm_num)

/-- C6: an `absent` observation never touches `lastFaceSeen` (nor
`lastAudioActivity`), whatever the debounce/threshold outcome; `multiple`
and `present` (ok) observations both set `lastFaceSeen := now` and leave
`lastAudioActivity` untouched. -/
theorem C6_face_presence_frame_effect (store : Store) (sid : Nat)
    (s : InterviewSession) (fd : String) (now : ℚ)
    (h : get_session store sid = some s) :
    (lookupSession sid
        (process_frame store sid fd .no_face now).1.sessions).map
        (fun x => (x.last_face_seen, x.last_audio_activity))
      = some (s.last_face_seen, s.last_audio_activity) ∧
    (lookupSession sid
        (process_frame store sid fd .multiple_faces now).1.sessions).map
        (fun x => (x.last_face_seen, x.last_audio_activity))
      = some (now, s.last_audio_activity) ∧
    (lookupSession sid
        (process_frame store sid fd .ok now).1.sessions).map
        (fun x => (x.last_face_seen, x.last_audio_activity))
      = some (now, s.last_audio_activity) := by
  have hl := (get_session_eq_some h).1
  refine ⟨?_, ?_, ?_⟩
  · by_cases h1 : FACE_ABSENCE_THRESHOLD_SECONDS < now - s.last_face_seen
    · by_cases h2 : debounceOk s.violations "FACE_MISSING" now 2 = true
      · rw [process_frame_no_face_record fd h h1 h2]
        show (lookupSession sid (setSession store sid _).sessions).map _ = _
        rw [lookupSession_setSession, hl]
        rfl
      · rw [process_frame_no_face_debounced fd h h1 h2]
        show (lookupSession sid (setSession store sid _).sessions).map _ = _
        rw [lookupSession_setSession, hl]
        rfl
    · rw [process_frame_no_face_within fd h h1]
      show (lookupSession sid (setSession store sid _).sessions).map _ = _
      rw [lookupSession_setSession, hl]
      rfl
  · rw [process_frame_multiple fd now h]
    show (lookupSession sid (setSession store sid _).sessions).map _ = _
    rw [lookupSession_setSession, hl]
    rfl
  · rw [process_frame_ok fd now h]
    show (lookupSession sid (setSession store sid _).sessions).map _ = _
    rw [lookupSession_setSession, hl]
    rfl

/-- Witness for C6 on the sample store at time 7. -/
theorem C6_witness :
    (lookupSession 1
        (process_frame sampleStore 1 "f" .no_face 7).1.sessions).map
        (fun x => (x.last_face_seen, x.last_audio_activity))
      = some (0, 0) ∧
    (lookupSession 1
        (process_frame sampleStore 1 "f" .multiple_faces 7).1.sessions).map
        (fun x => (x.last_face_seen, x.last_audio_activity))
      = some (7, 0) := by
  have h := C6_face_presence_frame_effect sampleStore 1 sampleSession "f"
    7 rfl
  exact ⟨h.1, h.2.1⟩

/-- Number of records of kind `t` in a log. -/
def countKind (log : List ViolationLog) (t : String) : Nat :=
  (kindLog log t).length

theorem runEvents_cons (store : Store) (e : Event) (es : List Event) :
    runEvents store (e :: es) = runEvents (stepEvent store e) es := rfl

/-- One `multiple` frame on an active session: the session stays active,
gains exactly one MULTIPLE_FACES record and has `lastFaceSeen` stamped. -/
theorem multiple_step {store : Store} {sid : Nat} {s : InterviewSession}
    (fd : String) (t : ℚ) (h : get_session store sid = some s) :
    get_session (process_frame store sid fd .multiple_faces t).1 sid
      = some { s with
          last_face_seen := t,
          violations := s.violations ++
            [⟨"MULTIPLE_FACES", t, .multipleFaces⟩],
          latest_frame := some fd } := by
  obtain ⟨hl, ha⟩ := get_session_eq_some h
  rw [process_frame_multiple fd t h]
  show get_session (setSession store sid _) sid = _
  unfold get_session
  rw [lookupSession_setSession, hl]
  simp [ha]

/-- A run of `multiple` frames adds one MULTIPLE_FACES record each. -/
theorem multiple_run {sid : Nat} (fd : String) (ts : List ℚ) :
    ∀ {store : Store} {s : InterviewSession},
      get_session store sid = some s →
      countKind (sessionViolations (runEvents store
          (ts.map fun t => .frame sid fd .multiple_faces t)) sid)
          "MULTIPLE_FACES"
        = countKind s.violations "MULTIPLE_FACES" + ts.length := by
  induction ts with
  | nil =>
    intro store s h
    have hl := (get_session_eq_some h).1
    simp [runEvents, sessionViolations, hl]
  | cons t ts ih =>
    intro store s h
    rw [List.map_cons, runEvents_cons]
    have hstep := multiple_step fd t h
    show countKind (sessionViolations (runEvents
        (process_frame store sid fd .multiple_faces t).1
        (ts.map fun t => .frame sid fd .multiple_faces t)) sid)
        "MULTIPLE_FACES" = _
    rw [ih hstep]
    show countKind (s.violations ++ [⟨"MULTIPLE_FACES", t, .multipleFaces⟩])
        "MULTIPLE_FACES" + ts.length = _
    unfold countKind
    rw [kindLog_append_same rfl]
    simp [List.length_append]
    omega

/-- C7: a `multiple` observation on an active session unconditionally
produces one MULTIPLE_FACES record (no debounce) and stamps
`lastFaceSeen := now`; N consecutive `multiple` observations yield exactly
N MULTIPLE_FACES records. -/
theorem C7_multiple_faces_no_debounce (store : Store) (sid : Nat)
    (s : InterviewSession) (fd : String) (now : ℚ) (ts : List ℚ)
    (h : get_session store sid = some s) :
    (process_frame store sid fd .multiple_faces now).2
      = some "MULTIPLE_FACES" ∧
    sessionViolations (process_frame store sid fd .multiple_faces now).1 sid
      = s.violations ++ [⟨"MULTIPLE_FACES", now, .multipleFaces⟩] ∧
    (lookupSession sid
        (process_frame store sid fd .multiple_faces now).1.sessions).map
        (fun x => x.last_face_seen) = some now ∧
    countKind (sessionViolations (runEvents store
        (ts.map fun t => .frame sid fd .multiple_faces t)) sid)
        "MULTIPLE_FACES"
      = countKind s.violations "MULTIPLE_FACES" + ts.length := by
  have hl := (get_session_eq_some h).1
  refine ⟨?_, ?_, ?_, multiple_run fd ts h⟩
  · rw [process_frame_multiple fd now h]
  · rw [process_frame_multiple fd now h]
    unfold sessionViolations
    show (match lookupSession sid (setSession store sid _).sessions with
      | some s => s.violations | none => []) = _
    rw [lookupSession_setSession, hl]
    rfl
  · rw [process_frame_multiple fd now h]
    show (lookupSession sid (setSession store sid _).sessions).map _ = _
    rw [lookupSession_setSession, hl]
    rfl

/-- Witness for C7: three `multiple` frames on the sample store yield
three MULTIPLE_FACES records (the sample log starts with none). -/
theorem C7_witness :
    countKind (sessionViolations (runEvents sampleStore
        ([4, 5, 6].map fun t => .frame 1 "f" .multiple_faces t)) 1)
        "MULTIPLE_FACES" = 3 := by
  have h := (C7_multiple_faces_no_debounce sampleStore 1 sampleSession "f"
    4 [4, 5, 6] rfl).2.2.2
  rw [h]
  decide

/-- C8: a non-silent sample stamps `lastAudioActivity := now` and records
nothing; a silent sample leaves `lastAudioActivity` unchanged and appends
an AUDIO_SILENCE record — whose detail carries the elapsed silence
`now - lastAudioActivity` — if and only if the elapsed silence strictly
exceeds SILENCE_THRESHOLD_SECONDS and no AUDIO_SILENCE record lies within
the 5-second debounce window (equivalently: the most-recent-record check
of the code passes). -/
theorem C8_audio_interpreter (store : Store) (sid : Nat)
    (s : InterviewSession) (now : ℚ) (h : get_session store sid = some s) :
    (lookupSession sid
        (send_audio_activity store sid false now).1.sessions).map
        (fun x => (x.last_audio_activity, x.violations))
      = some (now, s.violations) ∧
    (send_audio_activity store sid false now).2 = .success none ∧
    (lookupSession sid
        (send_audio_activity store sid true now).1.sessions).map
        (fun x => x.last_audio_activity) = some s.last_audio_activity ∧
    (SILENCE_THRESHOLD_SECONDS < now - s.last_audio_activity ∧
        debounceOk s.violations "AUDIO_SILENCE" now 5 = true →
      sessionViolations (send_audio_activity store sid true now).1 sid
        = s.violations ++
            [⟨"AUDIO_SILENCE", now,
              .silence (now - s.last_audio_activity)⟩] ∧
      (send_audio_activity store sid true now).2
        = .success (some "AUDIO_SILENCE")) ∧
    (¬ (SILENCE_THRESHOLD_SECONDS < now - s.last_audio_activity ∧
        debounceOk s.violations "AUDIO_SILENCE" now 5 = true) →
      sessionViolations (send_audio_activity store sid true now).1 sid
        = s.violations ∧
      (send_audio_activity store sid true now).2 = .success none) ∧
    (debounceOk s.violations "AUDIO_SILENCE" now 5 = true ↔
      ∀ v ∈ s.violations, v.violation_type = "AUDIO_SILENCE" →
        5 < now - v.timestamp) := by
  have hl := (get_session_eq_some h).1
  refine ⟨?_, ?_, ?_, ?_, ?_, debounceOk_iff _ _ _ _⟩
  · rw [send_audio_active now h]
    show (lookupSession sid (setSession store sid _).sessions).map _ = _
    rw [lookupSession_setSession, hl]
    rfl
  · rw [send_audio_active now h]
  · by_cases h12 : SILENCE_THRESHOLD_SECONDS < now - s.last_audio_activity ∧
        debounceOk s.violations "AUDIO_SILENCE" now 5 = true
    · rw [send_audio_silent_record h h12.1 h12.2]
      show (lookupSession sid (setSession store sid _).sessions).map _ = _
      rw [lookupSession_setSession, hl]
      rfl
    · rw [send_audio_silent_suppressed h h12]
      show (lookupSession sid store.sessions).map _ = _
      rw [hl]
      rfl
  · intro h12
    rw [send_audio_silent_record h h12.1 h12.2]
    refine ⟨?_, rfl⟩
    unfold sessionViolations
    show (match lookupSession sid (setSession store sid _).sessions with
      | some s => s.violations | none => []) = _
    rw [lookupSession_setSession, hl]
    rfl
  · intro h12
    rw [send_audio_silent_suppressed h h12]
    refine ⟨?_, rfl⟩
    unfold sessionViolations
    rw [hl]

/-- Witness for C8 on the sample store: a silent sample at time 7 (elapsed
7 > 5, no prior AUDIO_SILENCE record) appends one AUDIO_SILENCE record;
a non-silent sample at time 7 stamps the activity clock. -/
theorem C8_witness :
    sessionViolations (send_audio_activity sampleStore 1 true 7).1 1
      = sampleSession.violations ++
          [⟨"AUDIO_SILENCE", 7,
            .silence (7 - sampleSession.last_audio_activity)⟩] ∧
    (lookupSession 1
        (send_audio_activity sampleStore 1 false 7).1.sessions).map
        (fun x => (x.last_audio_activity, x.violations))
      = some (7, sampleSession.violations) := by
  have h := C8_audio_interpreter sampleStore 1 sampleSession 7 rfl
  exact ⟨(h.2.2.2.1 ⟨by show (5:ℚ) < 7 - 0; norm_num, by decide⟩).1, h.1⟩

/-- C9: a tab event on an active session (in particular the focus-loss
events `blur` and `hidden`) unconditionally appends exactly one TAB_SWITCH
record — no debounce, no threshold; a call for an unknown or inactive
session id appends nothing and leaves the store untouched. -/
theorem C9_tab_switch_unconditional (store : Store) (sid : Nat)
    (s : InterviewSession) (et : String) (now : ℚ)
    (h : get_session store sid = some s)
    (_hf : et = "blur" ∨ et = "hidden") :
    sessionViolations (log_tab_switch store sid et now).1 sid
      = s.violations ++ [⟨"TAB_SWITCH", now, .page et⟩] ∧
    (log_tab_switch store sid et now).2 = .success ∧
    (∀ (store2 : Store) (sid2 : Nat) (et2 : String) (now2 : ℚ),
      get_session store2 sid2 = none →
      log_tab_switch store2 sid2 et2 now2 = (store2, .error)) := by
  have hl := (get_session_eq_some h).1
  refine ⟨?_, ?_, fun store2 sid2 et2 now2 h2 =>
    log_tab_switch_not_found et2 now2 h2⟩
  · rw [log_tab_switch_found et now h]
    unfold sessionViolations
    show (match lookupSession sid (setSession store sid _).sessions with
      | some s => s.violations | none => []) = _
    rw [lookupSession_setSession, hl]
    rfl
  · rw [log_tab_switch_found et now h]

/-- Witness for C9 on the sample store: a `blur` event at time 3 appends
one TAB_SWITCH record. -/
theorem C9_witness :
    sessionViolations (log_tab_switch sampleStore 1 "blur" 3).1 1
      = sampleSession.violations ++ [⟨"TAB_SWITCH", 3, .page "blur"⟩] :=
  (C9_tab_switch_unconditional sampleStore 1 sampleSession "blur" 3 rfl
    (Or.inl rfl)).1

/-- C3: starting from any store satisfying the debounce invariant (e.g. a
fresh one with empty logs), after any sequence of frame/audio/tab/finalize
events no session's log contains two FACE_MISSING records within 2 s of
each other nor two AUDIO_SILENCE records within 5 s of each other;
TAB_SWITCH is exempt: on the resulting store a tab event for any active
session still appends a record unconditionally. -/
theorem C3_debounce_invariant (store : Store) (es : List Event)
    (h : StoreDebounced store) :
    StoreDebounced (runEvents store es) ∧
    (∀ sid : Nat,
      ((kindLog (sessionViolations (runEvents store es) sid)
          "FACE_MISSING").Pairwise
        fun a b => 2 < |b.timestamp - a.timestamp|) ∧
      ((kindLog (sessionViolations (runEvents store es) sid)
          "AUDIO_SILENCE").Pairwise
        fun a b => 5 < |b.timestamp - a.timestamp|)) ∧
    (∀ (sid : Nat) (s : InterviewSession) (et : String) (now : ℚ),
      get_session (runEvents store es) sid = some s →
      sessionViolations (log_tab_switch (runEvents store es) sid et now).1 sid
        = s.violations ++ [⟨"TAB_SWITCH", now, .page et⟩]) := by
  have hrun := runEvents_debounced es h
  refine ⟨hrun, fun sid => ?_, fun sid s et now hs => ?_⟩
  · have hld : LogDebounced (sessionViolations (runEvents store es) sid) := by
      unfold sessionViolations
      cases hl : lookupSession sid (runEvents store es).sessions with
      | none => exact ⟨List.Pairwise.nil, List.Pairwise.nil⟩
      | some t => exact hrun (sid, t) (lookupSession_mem hl)
    constructor
    · refine hld.1.imp ?_
      intro a b hab
      unfold KindGap at hab
      have h2 : (2:ℚ) < b.timestamp - a.timestamp := by linarith
      exact lt_of_lt_of_le h2 (le_abs_self _)
    · refine hld.2.imp ?_
      intro a b hab
      unfold KindGap at hab
      have h5 : (5:ℚ) < b.timestamp - a.timestamp := by linarith
      exact lt_of_lt_of_le h5 (le_abs_self _)
  · have hl := (get_session_eq_some hs).1
    rw [log_tab_switch_found et now hs]
    unfold sessionViolations
    show (match lookupSession sid
        (setSession (runEvents store es) sid _).sessions with
      | some s => s.violations | none => []) = _
    rw [lookupSession_setSession, hl]
    rfl

/-- Witness for C3: from the sample store (whose logs satisfy the
invariant), a burst of two `no_face` frames 1 s apart, two silent audio
samples 1 s apart and two tab events still satisfies the invariant. -/
theorem C3_witness :
    StoreDebounced sampleStore ∧
    StoreDebounced (runEvents sampleStore
      [.frame 1 "f" .no_face 10, .frame 1 "f" .no_face 11,
       .audio 1 true 10, .audio 1 true 11,
       .tab 1 "blur" 10, .tab 1 "hidden" 11]) := by
  have hd : StoreDebounced sampleStore := by decide
  exact ⟨hd, (C3_debounce_invariant sampleStore
    [.frame 1 "f" .no_face 10, .frame 1 "f" .no_face 11,
     .audio 1 true 10, .audio 1 true 11,
     .tab 1 "blur" 10, .tab 1 "hidden" 11] hd).1⟩

end Monitor
